import Mathlib

/-!
Verification of the on-chain payment verification and ledger subsystem of the
onlyagents backend (Solana $CREAM subscriptions and tips).

The development shallowly embeds the JavaScript source:

* `verifyCreamTransfer`  — src/utils/solana.js (transaction verification)
* `recordTip`            — src/services/TipService.js (tip ledger)
* `AgentService.subscribe` and the `POST /agents/:name/subscribe` route
  handler — src/services/AgentService.js and src/routes/agents.js
* the fee computation of the `POST /tips` route — src/routes/tips.js,
  modelled over IEEE-754 binary64 arithmetic embedded in ℚ
* an interleaving model of concurrent `recordTip` calls against the
  `tips` table and its UNIQUE(tx_signature) constraint.

Database effects are modelled by explicit state passing; chain (RPC) calls by
an environment mapping signatures/addresses to fetch results.  Amounts are
modelled as rationals except where IEEE-754 behaviour is itself the point
(the fee computation), where an exact binary64 rounding model is used.
-/

/-! ## JavaScript truthiness helpers

JS `a || b` on strings treats `""` as falsy, on numbers treats `0` as falsy,
and `undefined` (here `Option.none`) as falsy. -/

/-- Model of JS `s || d` for a string `s` (empty string is falsy). -/
def jsOrStr (s : String) (d : String) : String :=
  if s = "" then d else s

/-- Model of JS `o || d` for a possibly-undefined numeric field
(`undefined` and `0` are falsy). -/
def jsOrNum (o : Option ℚ) (d : ℚ) : ℚ :=
  match o with
  | none => d
  | some q => if q = 0 then d else q

/-- Model of JS truthiness of a possibly-undefined string field
(`undefined` and `""` are falsy). -/
def jsTruthy (o : Option String) : Bool :=
  match o with
  | none => false
  | some s => s ≠ ""

/-! ## Chain model (src/utils/solana.js)

`getParsedAccountInfo` either throws (network error / bad address) or returns
a value whose `value?.data?.parsed?.info` chain yields token-account data
(`mint`, `owner`) or `undefined` (missing account / malformed data).
`getParsedTransaction` either throws, returns `null`, or returns a parsed
transaction. -/

/-- Token-account contents as read through
`info?.value?.data?.parsed?.info` (fields `mint` and `owner`). -/
structure AccountData where
  mint : String
  owner : String
  deriving DecidableEq, Repr

/-- Result of `conn.getParsedAccountInfo(addr)`: the call throws, or resolves
with parsed info present (`some`) or absent/malformed (`none`). -/
inductive FetchRes where
  | throws
  | ok (data : Option AccountData)
  deriving DecidableEq, Repr

/-- Parsed info of an `spl-token` `transfer` instruction: `info.source`,
`info.destination` (possibly-undefined strings) and the numeric value of
`parseFloat(info.amount) || parseInt(info.amount, 10)`. -/
structure TransferInfo where
  source : Option String
  destination : Option String
  amount : ℚ
  deriving DecidableEq, Repr

/-- The `info.tokenAmount` object of a `transferChecked` instruction. -/
structure TokenAmount where
  uiAmount : Option ℚ
  amount : Option ℚ
  deriving DecidableEq, Repr

/-- Parsed info of an `spl-token` `transferChecked` instruction. -/
structure TransferCheckedInfo where
  source : String
  destination : String
  mint : String
  tokenAmount : Option TokenAmount
  deriving DecidableEq, Repr

/-- One parsed instruction: the loop in `verifyCreamTransfer` only
distinguishes `spl-token`/`transfer`, `spl-token`/`transferChecked`, and
everything else. -/
inductive Instr where
  | transfer (info : TransferInfo)
  | transferChecked (info : TransferCheckedInfo)
  | other
  deriving DecidableEq, Repr

/-- Parsed transaction: `meta.err` flag, outer instruction list and inner
instruction lists (`tx.meta.innerInstructions[i].instructions`). -/
structure ParsedTx where
  metaErr : Bool
  instructions : List Instr
  innerInstructions : List (List Instr)
  deriving DecidableEq, Repr

/-- Result of `conn.getParsedTransaction`: throws with an error message,
resolves `null`, or resolves a parsed transaction. -/
inductive TxFetch where
  | throws (msg : String)
  | notFound
  | found (tx : ParsedTx)
  deriving DecidableEq, Repr

/-- Chain environment: the configured `$CREAM` mint plus the two RPC calls
used by the verifier. -/
structure ChainEnv where
  creamTokenMint : String
  getTx : String → TxFetch
  getAcct : String → FetchRes

/-- Shape of the object returned by `verifyCreamTransfer`. -/
structure VerificationResult where
  valid : Bool
  amount : ℚ
  sender : String
  error : Option String
  deriving DecidableEq, Repr

/-- Body of the `transfer` branch of the scan loop.  Returns
`some (amount, sender)` when the instruction qualifies and the function
returns `valid: true`; `none` when the loop continues.  A thrown
`getParsedAccountInfo` (for destination or source) is caught by the inner
`try`/`catch` and the loop continues. -/
def tryTransfer (env : ChainEnv) (recipientAddress : String) (expectedAmount : ℚ)
    (info : TransferInfo) : Option (ℚ × String) :=
  if jsTruthy info.destination ∧ jsTruthy info.source then
    match env.getAcct (info.destination.getD "") with
    | .throws => none
    | .ok destData =>
      match destData with
      | some d =>
        if d.mint = env.creamTokenMint ∧ d.owner = recipientAddress ∧
            info.amount ≥ expectedAmount then
          match env.getAcct (info.source.getD "") with
          | .throws => none
          | .ok srcData =>
            some (info.amount, jsOrStr (match srcData with
              | some sd => sd.owner
              | none => "") "unknown")
        else none
      | none => none
  else none

/-- Body of the `transferChecked` branch of the scan loop.  The compared
amount is `parseFloat(info.tokenAmount?.uiAmount || info.tokenAmount?.amount
|| 0)`. -/
def tryTransferChecked (env : ChainEnv) (recipientAddress : String) (expectedAmount : ℚ)
    (info : TransferCheckedInfo) : Option (ℚ × String) :=
  if info.mint = env.creamTokenMint then
    match env.getAcct info.destination with
    | .throws => none
    | .ok destData =>
      match destData with
      | some d =>
        if d.owner = recipientAddress ∧
            jsOrNum (info.tokenAmount.bind (·.uiAmount))
              (jsOrNum (info.tokenAmount.bind (·.amount)) 0) ≥ expectedAmount then
          match env.getAcct info.source with
          | .throws => none
          | .ok srcData =>
            some (jsOrNum (info.tokenAmount.bind (·.uiAmount))
              (jsOrNum (info.tokenAmount.bind (·.amount)) 0),
              jsOrStr (match srcData with
                | some sd => sd.owner
                | none => "") "unknown")
        else none
      | none => none
  else none

/-- One iteration of the `for (const ix of allInstructions)` loop. -/
def tryIx (env : ChainEnv) (recipientAddress : String) (expectedAmount : ℚ) :
    Instr → Option (ℚ × String)
  | .transfer info => tryTransfer env recipientAddress expectedAmount info
  | .transferChecked info => tryTransferChecked env recipientAddress expectedAmount info
  | .other => none

/-- The scan loop: return on the first qualifying instruction, otherwise
fall through to the no-match result. -/
def scanIxs (env : ChainEnv) (recipientAddress : String) (expectedAmount : ℚ) :
    List Instr → VerificationResult
  | [] => ⟨false, 0, "", some "No matching $CREAM transfer found in transaction"⟩
  | ix :: rest =>
    match tryIx env recipientAddress expectedAmount ix with
    | some (a, s) => ⟨true, a, s, none⟩
    | none => scanIxs env recipientAddress expectedAmount rest

/-- Model of `verifyCreamTransfer(txId, recipientAddress, expectedAmount)`
from src/utils/solana.js. -/
def verifyCreamTransfer (env : ChainEnv) (txId recipientAddress : String)
    (expectedAmount : ℚ) : VerificationResult :=
  match env.getTx txId with
  | .throws msg => ⟨false, 0, "", some ("Verification failed: " ++ msg)⟩
  | .notFound => ⟨false, 0, "", some "Transaction not found"⟩
  | .found tx =>
    if tx.metaErr then ⟨false, 0, "", some "Transaction failed on-chain"⟩
    else scanIxs env recipientAddress expectedAmount
      (tx.instructions ++ tx.innerInstructions.flatten)

/-! ## Lemmas about the scan loop -/

/-- A qualifying `transfer` instruction always satisfies the amount gate. -/
theorem tryTransfer_ge {env : ChainEnv} {recip : String} {expected : ℚ}
    {info : TransferInfo} {a : ℚ} {s : String}
    (h : tryTransfer env recip expected info = some (a, s)) :
    expected ≤ a ∧ a = info.amount := by
  unfold tryTransfer at h
  split at h
  · split at h
    · exact absurd h (by simp)
    · split at h
      · split at h
        · split at h
          · exact absurd h (by simp)
          · rename_i hcond ha hsrcEq hdata
            simp only [Option.some.injEq, Prod.mk.injEq] at h
            exact ⟨h.1 ▸ hcond.2.2, h.1.symm⟩
        · exact absurd h (by simp)
      · exact absurd h (by simp)
  · exact absurd h (by simp)

/-- A qualifying `transferChecked` instruction always satisfies the amount
gate, and the returned amount is the selected `tokenAmount` value. -/
theorem tryTransferChecked_ge {env : ChainEnv} {recip : String} {expected : ℚ}
    {info : TransferCheckedInfo} {a : ℚ} {s : String}
    (h : tryTransferChecked env recip expected info = some (a, s)) :
    expected ≤ a ∧
      a = jsOrNum (info.tokenAmount.bind (·.uiAmount))
        (jsOrNum (info.tokenAmount.bind (·.amount)) 0) := by
  unfold tryTransferChecked at h
  split at h
  · split at h
    · exact absurd h (by simp)
    · split at h
      · split at h
        · split at h
          · exact absurd h (by simp)
          · rename_i hcond ha hsrcEq hdata
            simp only [Option.some.injEq, Prod.mk.injEq] at h
            exact ⟨h.1 ▸ hcond.2, h.1.symm⟩
        · exact absurd h (by simp)
      · exact absurd h (by simp)
  · exact absurd h (by simp)

/-- Every instruction the scan accepts satisfies the amount gate. -/
theorem tryIx_ge {env : ChainEnv} {recip : String} {expected : ℚ}
    {ix : Instr} {a : ℚ} {s : String}
    (h : tryIx env recip expected ix = some (a, s)) : expected ≤ a := by
  cases ix with
  | transfer info => exact (tryTransfer_ge h).1
  | transferChecked info => exact (tryTransferChecked_ge h).1
  | other => exact absurd h (by simp [tryIx])

/-- If the scan loop reports `valid` then the reported amount meets the
expected minimum. -/
theorem scanIxs_valid_ge (env : ChainEnv) (recip : String) (expected : ℚ)
    (l : List Instr) (h : (scanIxs env recip expected l).valid = true) :
    expected ≤ (scanIxs env recip expected l).amount := by
  induction l with
  | nil => simp [scanIxs] at h
  | cons ix rest ih =>
    simp only [scanIxs] at h ⊢
    cases hx : tryIx env recip expected ix with
    | none => simp only [hx] at h ⊢; exact ih h
    | some p =>
      obtain ⟨a, s⟩ := p
      simp only [hx]
      exact tryIx_ge hx

/-! ## Concrete chain environments used as witnesses and counterexamples -/

/-- Chain environment with one transaction `sigA` holding a single qualifying
plain `transfer` of 1000 units; destination and source accounts resolve. -/
def envOk : ChainEnv where
  creamTokenMint := "MINT"
  getTx := fun s =>
    if s = "sigA" then
      .found ⟨false, [.transfer ⟨some "srcAcct", some "dstAcct", 1000⟩], []⟩
    else .notFound
  getAcct := fun a =>
    if a = "dstAcct" then .ok (some ⟨"MINT", "RCP"⟩)
    else if a = "srcAcct" then .ok (some ⟨"MINT", "SENDER"⟩)
    else .throws

/-- Same transaction as `envOk`, but fetching the source account throws
(network error). -/
def envSrcThrows : ChainEnv where
  creamTokenMint := "MINT"
  getTx := fun s =>
    if s = "sigA" then
      .found ⟨false, [.transfer ⟨some "srcAcct", some "dstAcct", 1000⟩], []⟩
    else .notFound
  getAcct := fun a =>
    if a = "dstAcct" then .ok (some ⟨"MINT", "RCP"⟩) else .throws

/-- Same transaction as `envOk`, but the source account resolves with
malformed data (no parsed token-account info). -/
def envSrcUnknown : ChainEnv where
  creamTokenMint := "MINT"
  getTx := fun s =>
    if s = "sigA" then
      .found ⟨false, [.transfer ⟨some "srcAcct", some "dstAcct", 1000⟩], []⟩
    else .notFound
  getAcct := fun a =>
    if a = "dstAcct" then .ok (some ⟨"MINT", "RCP"⟩)
    else if a = "srcAcct" then .ok none
    else .throws

/-- C6: `verifyCreamTransfer` never reports `valid = true` on the strength of
an instruction whose compared amount is below the expected minimum — whenever
the result is valid, the qualifying amount is at least `expectedAmount`. -/
theorem C6_amount_gating (env : ChainEnv) (txId recip : String) (expected : ℚ)
    (h : (verifyCreamTransfer env txId recip expected).valid = true) :
    expected ≤ (verifyCreamTransfer env txId recip expected).amount := by
  unfold verifyCreamTransfer at h ⊢
  cases htx : env.getTx txId with
  | throws m => simp [htx] at h
  | notFound => simp [htx] at h
  | found tx =>
    simp only [htx] at h ⊢
    by_cases hm : tx.metaErr <;> simp only [hm, if_true, if_false] at h ⊢
    · simp at h
    · exact scanIxs_valid_ge _ _ _ _ h

/-- Witness for `C6_amount_gating` at a concrete environment. -/
theorem C6_amount_gating_witness :
    (verifyCreamTransfer envOk "sigA" "RCP" 500).valid = true ∧
    (500 : ℚ) ≤ (verifyCreamTransfer envOk "sigA" "RCP" 500).amount :=
  ⟨by decide, C6_amount_gating envOk "sigA" "RCP" 500 (by decide)⟩

/-- C7 (counterexample): in `envSrcThrows` the only instruction qualifies
(destination resolves to the expected mint and owner, amount 1000 ≥ 500) but
resolving the source account's owner throws; the claim says verification
still returns `valid = true` with an unresolved-sender sentinel, yet the code
catches the throw, skips the instruction, and ends with the no-match
failure. -/
theorem C7_counterexample :
    envSrcThrows.getAcct "srcAcct" = .throws ∧
    envSrcThrows.getAcct "dstAcct" = .ok (some ⟨"MINT", "RCP"⟩) ∧
    verifyCreamTransfer envSrcThrows "sigA" "RCP" 500 =
      ⟨false, 0, "", some "No matching $CREAM transfer found in transaction"⟩ := by
  decide

/-- C7 (amended): on a qualifying instruction, a source account that resolves
with malformed data yields `valid = true` with the sender reported as the
`"unknown"` sentinel, but a source account fetch that throws makes the scan
skip the instruction and continue, so a single-instruction transaction ends
in the no-match failure. -/
theorem C7_source_resolution (env : ChainEnv) (sig recip : String) (expected : ℚ)
    (info : TransferInfo) (dst src : String)
    (htx : env.getTx sig = .found ⟨false, [.transfer info], []⟩)
    (hd : info.destination = some dst) (hdne : dst ≠ "")
    (hs : info.source = some src) (hsne : src ≠ "")
    (hdst : env.getAcct dst = .ok (some ⟨env.creamTokenMint, recip⟩))
    (hge : info.amount ≥ expected) :
    (env.getAcct src = .ok none →
      verifyCreamTransfer env sig recip expected =
        ⟨true, info.amount, "unknown", none⟩) ∧
    (env.getAcct src = .throws →
      verifyCreamTransfer env sig recip expected =
        ⟨false, 0, "", some "No matching $CREAM transfer found in transaction"⟩) := by
  constructor <;> intro hsrc <;>
    simp [verifyCreamTransfer, htx, scanIxs, tryIx, tryTransfer, hd, hs, hdne, hsne,
      jsTruthy, hdst, hsrc, hge, jsOrStr]

/-- Witness for `C7_source_resolution` at a concrete environment. -/
theorem C7_source_resolution_witness :
    verifyCreamTransfer envSrcUnknown "sigA" "RCP" 500 =
      ⟨true, 1000, "unknown", none⟩ :=
  (C7_source_resolution envSrcUnknown "sigA" "RCP" 500
    ⟨some "srcAcct", some "dstAcct", 1000⟩ "dstAcct" "srcAcct"
    rfl rfl (by decide) rfl (by decide) rfl (by norm_num)).1 rfl

/-- C10: the amount compared against `expectedAmount` is taken in different
units per variant — for a plain `transfer` it is the raw `info.amount` field
(base units), while for `transferChecked` it is the decimal-adjusted
`tokenAmount.uiAmount` when that is present (and nonzero, JS truthiness) —
yet the same `expectedAmount` threshold gates both variants, and the accepted
instruction's compared value is what the result reports. -/
theorem C10_compared_units (env : ChainEnv) (recip : String) (expected : ℚ)
    (ti : TransferInfo) (ci : TransferCheckedInfo)
    (dst src : String) (sd sdC : Option AccountData) (u : ℚ)
    (hd : ti.destination = some dst) (hdne : dst ≠ "")
    (hs : ti.source = some src) (hsne : src ≠ "")
    (hdst : env.getAcct dst = .ok (some ⟨env.creamTokenMint, recip⟩))
    (hsrc : env.getAcct src = .ok sd)
    (hcm : ci.mint = env.creamTokenMint)
    (hta : ci.tokenAmount = some ⟨some u, none⟩) (hu : u ≠ 0)
    (hdstC : env.getAcct ci.destination = .ok (some ⟨env.creamTokenMint, recip⟩))
    (hsrcC : env.getAcct ci.source = .ok sdC) :
    ((∃ s, tryTransfer env recip expected ti = some (ti.amount, s)) ↔
      ti.amount ≥ expected) ∧
    ((∃ s, tryTransferChecked env recip expected ci = some (u, s)) ↔
      u ≥ expected) := by
  constructor
  · constructor
    · rintro ⟨s, h⟩
      exact (tryTransfer_ge h).1
    · intro hge
      exact ⟨jsOrStr (match sd with | some x => x.owner | none => "") "unknown",
        by simp [tryTransfer, hd, hs, hdne, hsne, jsTruthy, hdst, hsrc, hge]
           cases sd <;> rfl⟩
  · constructor
    · rintro ⟨s, h⟩
      exact (tryTransferChecked_ge h).1
    · intro hge
      exact ⟨jsOrStr (match sdC with | some x => x.owner | none => "") "unknown",
        by simp [tryTransferChecked, hcm, hta, hu, jsOrNum, hdstC, hsrcC, hge]
           cases sdC <;> rfl⟩

/-- Chain environment resolving accounts for both transfer variants. -/
def envBoth : ChainEnv where
  creamTokenMint := "MINT"
  getTx := fun _ => .notFound
  getAcct := fun a =>
    if a = "dstAcct" then .ok (some ⟨"MINT", "RCP"⟩)
    else if a = "srcAcct" then .ok (some ⟨"MINT", "SENDER"⟩)
    else if a = "dstC" then .ok (some ⟨"MINT", "RCP"⟩)
    else if a = "srcC" then .ok (some ⟨"MINT", "SENDER2"⟩)
    else .throws

/-- Witness for `C10_compared_units` at concrete instructions. -/
theorem C10_compared_units_witness :
    ((∃ s, tryTransfer envBoth "RCP" 5 ⟨some "srcAcct", some "dstAcct", 1000⟩ =
        some (1000, s)) ↔ (1000 : ℚ) ≥ 5) ∧
    ((∃ s, tryTransferChecked envBoth "RCP" 5 ⟨"srcC", "dstC", "MINT", some ⟨some 7, none⟩⟩ =
        some (7, s)) ↔ (7 : ℚ) ≥ 5) :=
  C10_compared_units envBoth "RCP" 5
    ⟨some "srcAcct", some "dstAcct", 1000⟩ ⟨"srcC", "dstC", "MINT", some ⟨some 7, none⟩⟩
    "dstAcct" "srcAcct" (some ⟨"MINT", "SENDER"⟩) (some ⟨"MINT", "SENDER2"⟩) 7
    rfl (by decide) rfl (by decide) rfl rfl rfl rfl (by norm_num) rfl rfl

/-! ## Tip ledger model (src/services/TipService.js, `tips` table)

The `tips` table (migration 005) has `tx_signature VARCHAR(128) NOT NULL
UNIQUE`; `recordTip` first runs `SELECT id FROM tips WHERE tx_signature = $1`
(an application-level existence check), then verifies the transaction
on-chain, then a plain `INSERT` (no ON CONFLICT clause), then a separate
`UPDATE agents SET tip_count = tip_count + 1, tip_volume = tip_volume + $2`
for the recipient. -/

/-- One row of the `tips` table. -/
structure TipRecord where
  tipperId : String
  recipientId : String
  postId : Option String
  amount : ℚ
  feeAmount : ℚ
  txSignature : String
  deriving DecidableEq, Repr

/-- Ledger state touched by tipping: the `tips` rows plus the per-agent
`tip_count` and `tip_volume` counters on `agents`. -/
structure TipsState where
  tips : List TipRecord
  tipCount : String → ℕ
  tipVolume : String → ℚ

/-- Outcome of `TipService.verifyTransaction` for a given signature:
resolves a transaction, resolves `null`, resolves a failed transaction, or
the RPC call throws. -/
inductive TxCheck where
  | ok
  | notFound
  | failedOnChain
  | throws (msg : String)
  deriving DecidableEq, Repr

/-- Errors thrown out of `recordTip`.  The first four are
`BadRequestError`s with the quoted messages; `uniqueViolation` is the raw
PostgreSQL 23505 error raised when the plain `INSERT` hits the UNIQUE
constraint (possible only under a concurrent race). -/
inductive TipErr where
  | alreadyRecorded
  | txNotFound
  | txFailed
  | verifyFailed (msg : String)
  | uniqueViolation
  deriving DecidableEq, Repr

/-- Arguments of `TipService.recordTip`. -/
structure TipArgs where
  tipperId : String
  recipientId : String
  postId : Option String
  amount : ℚ
  feeAmount : ℚ
  txSignature : String
  deriving DecidableEq, Repr

/-- Model of `TipService.recordTip` as a sequential state transformer:
duplicate check by `SELECT`, on-chain verification, `INSERT` (guarded by the
table's UNIQUE constraint), then the counter `UPDATE`. -/
def recordTip (chain : String → TxCheck) (args : TipArgs) (s : TipsState) :
    Except TipErr TipRecord × TipsState :=
  if ∃ t ∈ s.tips, t.txSignature = args.txSignature then
    (.error .alreadyRecorded, s)
  else
    match chain args.txSignature with
    | .notFound => (.error .txNotFound, s)
    | .failedOnChain => (.error .txFailed, s)
    | .throws m => (.error (.verifyFailed m), s)
    | .ok =>
      if ∃ t ∈ s.tips, t.txSignature = args.txSignature then
        (.error .uniqueViolation, s)
      else
        (.ok ⟨args.tipperId, args.recipientId, args.postId, args.amount,
            args.feeAmount, args.txSignature⟩,
          ⟨⟨args.tipperId, args.recipientId, args.postId, args.amount,
              args.feeAmount, args.txSignature⟩ :: s.tips,
            Function.update s.tipCount args.recipientId
              (s.tipCount args.recipientId + 1),
            Function.update s.tipVolume args.recipientId
              (s.tipVolume args.recipientId + args.amount)⟩)

/-- C2: once a `recordTip` call with signature S has succeeded, any second
`recordTip` call with S — whatever its other fields and whatever the chain
then answers — returns the duplicate error and leaves the tip store
unchanged, and exactly one stored record carries S. -/
theorem C2_recordTip_idempotent (chain chain2 : String → TxCheck)
    (a1 a2 : TipArgs) (s0 s1 : TipsState) (r : TipRecord)
    (h : recordTip chain a1 s0 = (.ok r, s1))
    (hsig : a2.txSignature = a1.txSignature) :
    recordTip chain2 a2 s1 = (.error .alreadyRecorded, s1) ∧
    s1.tips.countP (fun t => decide (t.txSignature = a1.txSignature)) = 1 := by
  unfold recordTip at h
  by_cases hc : ∃ t ∈ s0.tips, t.txSignature = a1.txSignature
  · simp [hc] at h
  · simp only [hc, if_neg, if_false] at h
    cases hch : chain a1.txSignature <;> simp [hch, hc] at h
    obtain ⟨-, hs1⟩ := h
    have htips : s1.tips = ⟨a1.tipperId, a1.recipientId, a1.postId, a1.amount,
        a1.feeAmount, a1.txSignature⟩ :: s0.tips := by
      rw [← hs1]
    constructor
    · unfold recordTip
      have : ∃ t ∈ s1.tips, t.txSignature = a2.txSignature := by
        refine ⟨_, by rw [htips]; exact List.mem_cons_self _ _, ?_⟩
        simpa using hsig.symm
      simp [this]
    · have h0 : s0.tips.countP (fun t => decide (t.txSignature = a1.txSignature)) = 0 := by
        rw [List.countP_eq_zero]
        intro t ht
        simpa using fun he => hc ⟨t, ht, he⟩
      simp [htips, List.countP_cons, h0]

/-- Empty tip ledger. -/
def tipsState0 : TipsState := ⟨[], fun _ => 0, fun _ => 0⟩

/-- Concrete tip arguments with signature `S`. -/
def tipArgsW : TipArgs := ⟨"tipper", "rcpt", none, 100, 10, "S"⟩

/-- Witness for `C2_recordTip_idempotent` on a concrete run. -/
theorem C2_recordTip_idempotent_witness :
    recordTip (fun _ => .ok) tipArgsW
        (recordTip (fun _ => .ok) tipArgsW tipsState0).2 =
      (.error .alreadyRecorded, (recordTip (fun _ => .ok) tipArgsW tipsState0).2) ∧
    ((recordTip (fun _ => .ok) tipArgsW tipsState0).2.tips.countP
        (fun t => decide (t.txSignature = "S"))) = 1 :=
  C2_recordTip_idempotent (fun _ => .ok) (fun _ => .ok) tipArgsW tipArgsW
    tipsState0 _ _ rfl rfl

/-! ## Subscription model (src/services/AgentService.js, src/routes/agents.js)

Tables: `agent_subscriptions` with UNIQUE(subscriber_id, target_id) and
`subscription_transactions` with `tx_id VARCHAR(128) NOT NULL UNIQUE`
(scripts/schema.sql).  `AgentService.subscribe` runs, inside one database
transaction, `INSERT ... ON CONFLICT (subscriber_id, target_id) DO NOTHING
RETURNING id` followed — only when a row was returned — by `UPDATE agents SET
subscriber_count = subscriber_count + 1`.  The route handler then issues a
separate plain `INSERT INTO subscription_transactions` outside that
transaction. -/

/-- Surfaced HTTP error: status code, optional machine-readable code, and
message.  `BadRequestError(message, code?)` surfaces with status 400; a raw
PostgreSQL error is sanitized by the errorHandler middleware to status 400
with a fixed message and no code. -/
structure ApiErr where
  status : ℕ
  code : Option String
  message : String
  deriving DecidableEq, Repr

/-- One row of `subscription_transactions`. -/
structure SubProof where
  subscriberId : String
  targetId : String
  txId : String
  amount : ℚ
  senderAddress : String
  deriving DecidableEq, Repr

/-- Ledger state touched by subscribing: the `agent_subscriptions` pairs,
the per-agent `subscriber_count`, and the `subscription_transactions`
rows. -/
structure SubState where
  pairs : List (String × String)
  subscriberCount : String → ℕ
  proofs : List SubProof

/-- Result reported by `AgentService.subscribe`. -/
inductive SubAction where
  | subscribed
  | alreadySubscribed
  deriving DecidableEq, Repr

/-- Model of `AgentService.subscribe(subscriberId, targetAgentId)`: reject
self-subscription, then a conditional insert of the pair plus the counter
increment in one atomic unit. -/
def AgentService.subscribe (subscriberId targetAgentId : String) (s : SubState) :
    Except ApiErr SubAction × SubState :=
  if subscriberId = targetAgentId then
    (.error ⟨400, none, "Cannot subscribe to yourself"⟩, s)
  else if (subscriberId, targetAgentId) ∈ s.pairs then
    (.ok .alreadySubscribed, s)
  else
    (.ok .subscribed,
      { s with
          pairs := (subscriberId, targetAgentId) :: s.pairs,
          subscriberCount := Function.update s.subscriberCount targetAgentId
            (s.subscriberCount targetAgentId + 1) })

/-- The target agent fields the subscribe route reads. -/
structure Agent where
  id : String
  solanaAddress : String
  subscriptionPrice : ℚ
  deriving DecidableEq, Repr

/-- Model of the `POST /agents/:name/subscribe` handler after the target
agent has been found: price check, `verifyCreamTransfer`, then
`AgentService.subscribe`, then the plain `INSERT INTO
subscription_transactions` whose UNIQUE(tx_id) violation surfaces as the
sanitized `Duplicate entry` error while the already-committed pair insert
and counter increment stay in place. -/
def subscribeRoute (env : ChainEnv) (agentId : String) (target : Agent)
    (txId : String) (s : SubState) :
    Except ApiErr (SubAction × ℚ) × SubState :=
  if target.subscriptionPrice ≤ 0 then
    (.error ⟨400, none, "This agent has not set a subscription price"⟩, s)
  else
    if (verifyCreamTransfer env txId target.solanaAddress
        target.subscriptionPrice).valid = false then
      (.error ⟨400, some "INVALID_TX",
        "Transaction verification failed: " ++
          (verifyCreamTransfer env txId target.solanaAddress
            target.subscriptionPrice).error.getD ""⟩, s)
    else
      match AgentService.subscribe agentId target.id s with
      | (.error e, s1) => (.error e, s1)
      | (.ok action, s1) =>
        if ∃ p ∈ s1.proofs, p.txId = txId then
          (.error ⟨400, none, "Duplicate entry"⟩, s1)
        else
          (.ok (action,
              (verifyCreamTransfer env txId target.solanaAddress
                target.subscriptionPrice).amount),
            { s1 with
                proofs := ⟨agentId, target.id, txId,
                  (verifyCreamTransfer env txId target.solanaAddress
                    target.subscriptionPrice).amount,
                  (verifyCreamTransfer env txId target.solanaAddress
                    target.subscriptionPrice).sender⟩ :: s1.proofs })

/-- C5: for a subscribe call that reached the pair step (distinct accounts),
the pair already existing yields `already_subscribed` with the counter and
state unchanged; a fresh pair is inserted with the target's
`subscriber_count` incremented by exactly one and `subscribed` reported —
the counter increments if and only if a new pair was inserted. -/
theorem C5_pair_toggle (sub tgt : String) (s : SubState) (hne : sub ≠ tgt) :
    ((sub, tgt) ∈ s.pairs →
      AgentService.subscribe sub tgt s = (.ok .alreadySubscribed, s)) ∧
    ((sub, tgt) ∉ s.pairs →
      AgentService.subscribe sub tgt s =
        (.ok .subscribed,
          { s with
              pairs := (sub, tgt) :: s.pairs,
              subscriberCount := Function.update s.subscriberCount tgt
                (s.subscriberCount tgt + 1) }) ∧
      (Function.update s.subscriberCount tgt (s.subscriberCount tgt + 1)) tgt =
        s.subscriberCount tgt + 1 ∧
      ∀ a, a ≠ tgt →
        (Function.update s.subscriberCount tgt (s.subscriberCount tgt + 1)) a =
          s.subscriberCount a) := by
  refine ⟨fun hmem => ?_, fun hmem => ⟨?_, ?_, fun a ha => ?_⟩⟩
  · simp [AgentService.subscribe, hne, hmem]
  · simp [AgentService.subscribe, hne, hmem]
  · simp
  · simp [Function.update_noteq ha]

/-- Empty subscription state. -/
def subState0 : SubState := ⟨[], fun _ => 0, []⟩

/-- Witness for `C5_pair_toggle` on the empty state. -/
theorem C5_pair_toggle_witness :
    AgentService.subscribe "alice" "bob" subState0 =
      (.ok .subscribed,
        { subState0 with
            pairs := [("alice", "bob")],
            subscriberCount := Function.update subState0.subscriberCount "bob"
              (subState0.subscriberCount "bob" + 1) }) :=
  ((C5_pair_toggle "alice" "bob" subState0 (by decide)).2 (by simp [subState0])).1

/-- Concrete target agent: wallet `RCP`, subscription price 500. -/
def targetW : Agent := ⟨"tgtId", "RCP", 500⟩

/-- Subscription state already holding a proof for signature `sigA` (for
another subscriber pair) but no subscription pairs. -/
def subStateDupProof : SubState := ⟨[], fun _ => 0, [⟨"x", "y", "sigA", 700, "Z"⟩]⟩

/-- C4 (counterexample): with a proof for `sigA` already recorded, a
verified subscribe call using `sigA` fails on the proof insert — but by then
the subscription pair has been inserted and the subscriber count
incremented, and nothing is rolled back: the claim that no subscription
state change has taken place on a duplicate-proof error is false, as is
the claimed proof-first ordering. -/
theorem C4_counterexample :
    (subscribeRoute envOk "subId" targetW "sigA" subStateDupProof).1 =
      .error ⟨400, none, "Duplicate entry"⟩ ∧
    (subscribeRoute envOk "subId" targetW "sigA" subStateDupProof).2.pairs =
      [("subId", "tgtId")] ∧
    (subscribeRoute envOk "subId" targetW "sigA" subStateDupProof).2.subscriberCount
      "tgtId" = 1 ∧
    subStateDupProof.pairs = [] ∧
    subStateDupProof.subscriberCount "tgtId" = 0 ∧
    (subscribeRoute envOk "subId" targetW "sigA" subStateDupProof).2.proofs =
      subStateDupProof.proofs :=
  ⟨rfl, rfl, rfl, rfl, rfl, rfl⟩

/-- C4 (amended): after successful verification the handler first inserts
the Subscription pair and increments the subscriber count, and only then
tries to persist the proof; a duplicate signature there surfaces as the
sanitized duplicate error while the pair insert and counter increment
remain in place — state is not unchanged on that error. -/
theorem C4_pair_before_proof (env : ChainEnv) (agentId : String) (target : Agent)
    (txId : String) (s : SubState)
    (hv : (verifyCreamTransfer env txId target.solanaAddress
      target.subscriptionPrice).valid = true)
    (hp : 0 < target.subscriptionPrice)
    (hne : agentId ≠ target.id)
    (hpair : (agentId, target.id) ∉ s.pairs)
    (hdup : ∃ p ∈ s.proofs, p.txId = txId) :
    subscribeRoute env agentId target txId s =
      (.error ⟨400, none, "Duplicate entry"⟩,
        { s with
            pairs := (agentId, target.id) :: s.pairs,
            subscriberCount := Function.update s.subscriberCount target.id
              (s.subscriberCount target.id + 1) }) := by
  simp [subscribeRoute, not_le.mpr hp, hv, AgentService.subscribe, hne, hpair, hdup]

/-- Witness for `C4_pair_before_proof` on a concrete run. -/
theorem C4_pair_before_proof_witness :
    subscribeRoute envOk "subId" targetW "sigA" subStateDupProof =
      (.error ⟨400, none, "Duplicate entry"⟩,
        { subStateDupProof with
            pairs := [("subId", "tgtId")],
            subscriberCount := Function.update subStateDupProof.subscriberCount
              "tgtId" (subStateDupProof.subscriberCount "tgtId" + 1) }) :=
  C4_pair_before_proof envOk "subId" targetW "sigA" subStateDupProof
    (by decide) (by norm_num [targetW]) (by decide) (by decide) (by decide)

/-- Chain environment whose RPC call always throws (upstream down). -/
def envUpstreamDown : ChainEnv :=
  ⟨"MINT", fun _ => .throws "connection timeout", fun _ => .throws⟩

/-- Chain environment where the transaction does not exist. -/
def envTxMissing : ChainEnv := ⟨"MINT", fun _ => .notFound, fun _ => .throws⟩

/-- Chain environment where `sigA` exists but holds no instructions. -/
def envNoMatch : ChainEnv :=
  ⟨"MINT", fun s => if s = "sigA" then .found ⟨false, [], []⟩ else .notFound,
    fun _ => .throws⟩

/-- Machine-readable kind of a route outcome: HTTP status plus error code.
These two fields are all a caller can dispatch on without parsing free
message text. -/
def routeErrKind (r : Except ApiErr (SubAction × ℚ)) : Option (ℕ × Option String) :=
  match r with
  | .error e => some (e.status, e.code)
  | .ok _ => none

/-- C8 (counterexample): a chain-client failure (thrown RPC call), a
signature not found on-chain, and an ordinary no-matching-transfer failure
all surface from the subscribe handler with the identical machine-readable
kind — status 400, code `INVALID_TX` — differing only in free message text;
no distinct retryable `UpstreamUnavailable` error exists. -/
theorem C8_counterexample :
    (subscribeRoute envUpstreamDown "subId" targetW "sigA" subState0).1 =
      .error ⟨400, some "INVALID_TX",
        "Transaction verification failed: Verification failed: connection timeout"⟩ ∧
    (subscribeRoute envTxMissing "subId" targetW "sigA" subState0).1 =
      .error ⟨400, some "INVALID_TX",
        "Transaction verification failed: Transaction not found"⟩ ∧
    (subscribeRoute envNoMatch "subId" targetW "sigA" subState0).1 =
      .error ⟨400, some "INVALID_TX",
        "Transaction verification failed: No matching $CREAM transfer found in transaction"⟩ ∧
    routeErrKind (subscribeRoute envUpstreamDown "subId" targetW "sigA" subState0).1 =
      routeErrKind (subscribeRoute envTxMissing "subId" targetW "sigA" subState0).1 ∧
    routeErrKind (subscribeRoute envUpstreamDown "subId" targetW "sigA" subState0).1 =
      routeErrKind (subscribeRoute envNoMatch "subId" targetW "sigA" subState0).1 :=
  ⟨rfl, rfl, rfl, rfl, rfl⟩

/-- C8 (amended): a chain-client failure is folded by the verifier's outer
catch into `valid=false` and surfaced by the subscribe handler as the same
status-400 `INVALID_TX` error as a signature not found on-chain; the two
outcomes share their machine-readable kind and differ only in message
text — there is no distinct retryable upstream-unavailable kind. -/
theorem C8_upstream_not_distinct (env1 env2 : ChainEnv) (agentId : String)
    (target : Agent) (txId : String) (s : SubState) (msg : String)
    (hp : 0 < target.subscriptionPrice)
    (h1 : env1.getTx txId = .throws msg)
    (h2 : env2.getTx txId = .notFound) :
    subscribeRoute env1 agentId target txId s =
      (.error ⟨400, some "INVALID_TX",
        "Transaction verification failed: " ++ ("Verification failed: " ++ msg)⟩, s) ∧
    subscribeRoute env2 agentId target txId s =
      (.error ⟨400, some "INVALID_TX",
        "Transaction verification failed: Transaction not found"⟩, s) ∧
    routeErrKind (subscribeRoute env1 agentId target txId s).1 =
      routeErrKind (subscribeRoute env2 agentId target txId s).1 := by
  have hv1 : verifyCreamTransfer env1 txId target.solanaAddress
      target.subscriptionPrice =
      ⟨false, 0, "", some ("Verification failed: " ++ msg)⟩ := by
    simp [verifyCreamTransfer, h1]
  have hv2 : verifyCreamTransfer env2 txId target.solanaAddress
      target.subscriptionPrice =
      ⟨false, 0, "", some "Transaction not found"⟩ := by
    simp [verifyCreamTransfer, h2]
  refine ⟨?_, ?_, ?_⟩ <;>
    simp [subscribeRoute, not_le.mpr hp, hv1, hv2, routeErrKind, String.append_assoc]

/-- Witness for `C8_upstream_not_distinct` at concrete environments. -/
theorem C8_upstream_not_distinct_witness :
    subscribeRoute envUpstreamDown "subId" targetW "sigA" subState0 =
      (.error ⟨400, some "INVALID_TX",
        "Transaction verification failed: " ++
          ("Verification failed: " ++ "connection timeout")⟩, subState0) ∧
    subscribeRoute envTxMissing "subId" targetW "sigA" subState0 =
      (.error ⟨400, some "INVALID_TX",
        "Transaction verification failed: Transaction not found"⟩, subState0) ∧
    routeErrKind (subscribeRoute envUpstreamDown "subId" targetW "sigA" subState0).1 =
      routeErrKind (subscribeRoute envTxMissing "subId" targetW "sigA" subState0).1 :=
  C8_upstream_not_distinct envUpstreamDown envTxMissing "subId" targetW "sigA"
    subState0 "connection timeout" (by norm_num [targetW]) rfl rfl

/-! ## Combined ledger (tips plus subscription proofs) for the global
uniqueness question: the `tips` and `subscription_transactions` tables each
carry their own UNIQUE constraint on the signature column, and no code path
checks one table against the other. -/

/-- The whole payment ledger: tip state and subscription state. -/
structure Ledger where
  tips : TipsState
  subs : SubState

/-- `recordTip` lifted to the combined ledger. -/
def recordTipL (chain : String → TxCheck) (args : TipArgs) (l : Ledger) :
    Except TipErr TipRecord × Ledger :=
  ((recordTip chain args l.tips).1, ⟨(recordTip chain args l.tips).2, l.subs⟩)

/-- The subscribe route lifted to the combined ledger. -/
def subscribeRouteL (env : ChainEnv) (agentId : String) (target : Agent)
    (txId : String) (l : Ledger) : Except ApiErr (SubAction × ℚ) × Ledger :=
  ((subscribeRoute env agentId target txId l.subs).1,
    ⟨l.tips, (subscribeRoute env agentId target txId l.subs).2⟩)

/-- Number of ledger records (tips plus subscription proofs) carrying a
given signature. -/
def sigCount (l : Ledger) (sig : String) : ℕ :=
  l.tips.tips.countP (fun t => decide (t.txSignature = sig)) +
    l.subs.proofs.countP (fun p => decide (p.txId = sig))

/-- Empty combined ledger. -/
def ledger0 : Ledger := ⟨tipsState0, subState0⟩

/-- Tip arguments carrying signature `sigA`. -/
def tipArgsSigA : TipArgs := ⟨"tipper", "rcpt", none, 100, 10, "sigA"⟩

/-- C3 (counterexample): from an empty ledger, recording `sigA` as a tip
succeeds and afterwards a subscribe call presenting the same `sigA` also
succeeds — the signature ends up persisted twice across the ledger (once per
table), so signature uniqueness is not global across record types. -/
theorem C3_counterexample :
    (recordTipL (fun _ => .ok) tipArgsSigA ledger0).1 =
      .ok ⟨"tipper", "rcpt", none, 100, 10, "sigA"⟩ ∧
    (subscribeRouteL envOk "subId" targetW "sigA"
      (recordTipL (fun _ => .ok) tipArgsSigA ledger0).2).1 =
      .ok (.subscribed, 1000) ∧
    sigCount (subscribeRouteL envOk "subId" targetW "sigA"
      (recordTipL (fun _ => .ok) tipArgsSigA ledger0).2).2 "sigA" = 2 :=
  ⟨rfl, rfl, rfl⟩

/-- Per-type signature uniqueness: every signature occurs at most once among
the tips and at most once among the subscription proofs. -/
def perTypeUnique (l : Ledger) : Prop :=
  ∀ sig : String,
    l.tips.tips.countP (fun t => decide (t.txSignature = sig)) ≤ 1 ∧
    l.subs.proofs.countP (fun p => decide (p.txId = sig)) ≤ 1

/-- Inserting a row whose key is absent keeps per-key counts at most one. -/
theorem countP_cons_unique {α : Type} (f : α → String) (row : α) (l : List α)
    (habs : ¬∃ t ∈ l, f t = f row)
    (hl : ∀ sig, l.countP (fun t => decide (f t = sig)) ≤ 1) :
    ∀ sig, (row :: l).countP (fun t => decide (f t = sig)) ≤ 1 := by
  intro sig
  rw [List.countP_cons]
  by_cases hs : f row = sig
  · have h0 : l.countP (fun t => decide (f t = sig)) = 0 := by
      rw [List.countP_eq_zero]
      intro t ht
      simpa using fun he => habs ⟨t, ht, he.trans hs.symm⟩
    simp [hs, h0]
  · simp [hs, hl sig]

/-- `recordTip` either leaves the state untouched or prepends the new row,
and in the latter case the signature was absent. -/
theorem recordTip_tips_cases (chain : String → TxCheck) (args : TipArgs)
    (s : TipsState) :
    (recordTip chain args s).2 = s ∨
    ((recordTip chain args s).2.tips =
        ⟨args.tipperId, args.recipientId, args.postId, args.amount,
          args.feeAmount, args.txSignature⟩ :: s.tips ∧
      ¬∃ t ∈ s.tips, t.txSignature = args.txSignature) := by
  unfold recordTip
  by_cases hc : ∃ t ∈ s.tips, t.txSignature = args.txSignature
  · left; simp [hc]
  · cases hch : chain args.txSignature with
    | ok => right; exact ⟨by simp [hc, hch], hc⟩
    | notFound => left; simp [hc, hch]
    | failedOnChain => left; simp [hc, hch]
    | throws m => left; simp [hc, hch]

/-- `AgentService.subscribe` never touches the proofs table. -/
theorem subscribe_proofs_eq (sub tgt : String) (s : SubState) :
    ((AgentService.subscribe sub tgt s).2).proofs = s.proofs := by
  unfold AgentService.subscribe
  split_ifs <;> rfl

/-- The subscribe route either leaves the proofs untouched or prepends one
new proof row carrying the submitted signature, and in the latter case that
signature was absent from the proofs. -/
theorem subscribeRoute_proofs_cases (env : ChainEnv) (agentId : String)
    (target : Agent) (txId : String) (s : SubState) :
    (subscribeRoute env agentId target txId s).2.proofs = s.proofs ∨
    (∃ amt snd, (subscribeRoute env agentId target txId s).2.proofs =
        (⟨agentId, target.id, txId, amt, snd⟩ : SubProof) :: s.proofs ∧
      ¬∃ p ∈ s.proofs, p.txId = txId) := by
  unfold subscribeRoute
  by_cases h0 : target.subscriptionPrice ≤ 0
  · left; simp [h0]
  · simp only [h0, if_false]
    by_cases hv : (verifyCreamTransfer env txId target.solanaAddress
        target.subscriptionPrice).valid = false
    · left; simp [hv]
    · simp only [hv, if_false]
      have hps := subscribe_proofs_eq agentId target.id s
      rcases hsub : AgentService.subscribe agentId target.id s with ⟨r, s1⟩
      rw [hsub] at hps
      cases r with
      | error e => left; simpa using hps
      | ok action =>
        by_cases hdup : ∃ p ∈ s1.proofs, p.txId = txId
        · left; simpa [hdup] using hps
        · right
          refine ⟨(verifyCreamTransfer env txId target.solanaAddress
              target.subscriptionPrice).amount,
            (verifyCreamTransfer env txId target.solanaAddress
              target.subscriptionPrice).sender, ?_, ?_⟩
          · simp [hdup]
            exact hps
          · rw [show s1.proofs = s.proofs from hps] at hdup
            exact hdup

/-- C3 (amended): signature uniqueness in the ledger is per record type, not
global — every reachable operation (a `recordTip` call or a subscribe-route
call) preserves the invariant that each signature occurs at most once among
the tips and at most once among the subscription proofs, while
`C3_counterexample` shows the same signature can legitimately occur in
both. -/
theorem C3_per_type_unique_preserved (chain : String → TxCheck) (args : TipArgs)
    (env : ChainEnv) (agentId : String) (target : Agent) (txId : String)
    (l : Ledger) (hl : perTypeUnique l) :
    perTypeUnique (recordTipL chain args l).2 ∧
    perTypeUnique (subscribeRouteL env agentId target txId l).2 := by
  constructor
  · intro sig
    refine ⟨?_, (hl sig).2⟩
    rcases recordTip_tips_cases chain args l.tips with h | ⟨h, habs⟩
    · simpa [recordTipL, h] using (hl sig).1
    · have := countP_cons_unique (fun t => t.txSignature)
        ⟨args.tipperId, args.recipientId, args.postId, args.amount,
          args.feeAmount, args.txSignature⟩ l.tips.tips habs
        (fun sg => (hl sg).1) sig
      simpa [recordTipL, h] using this
  · intro sig
    refine ⟨(hl sig).1, ?_⟩
    rcases subscribeRoute_proofs_cases env agentId target txId l.subs with
      h | ⟨amt, snd, h, habs⟩
    · simpa [subscribeRouteL, h] using (hl sig).2
    · have := countP_cons_unique (fun p => p.txId)
        ⟨agentId, target.id, txId, amt, snd⟩ l.subs.proofs habs
        (fun sg => (hl sg).2) sig
      simpa [subscribeRouteL, h] using this

/-- Witness for `C3_per_type_unique_preserved` on the empty ledger. -/
theorem C3_per_type_unique_preserved_witness :
    perTypeUnique (recordTipL (fun _ => .ok) tipArgsSigA ledger0).2 ∧
    perTypeUnique (subscribeRouteL envOk "subId" targetW "sigA" ledger0).2 :=
  C3_per_type_unique_preserved (fun _ => .ok) tipArgsSigA envOk "subId" targetW
    "sigA" ledger0 (fun sig => by simp [ledger0, tipsState0, subState0])

/-! ## Interleaving model of N concurrent `recordTip` calls on one signature

Each call executes three atomic database statements in order: the `SELECT`
duplicate check, the plain `INSERT` (accepted or rejected atomically by the
table's UNIQUE(tx_signature) constraint), and the counter `UPDATE`.  All
calls present the same signature and would verify successfully.  Threads are
identical, so a state is abstracted to the number of threads at each program
point plus the shared database facts; a schedule is a list of labels, each
advancing one thread (if any) past the named statement. -/

/-- Counting state of the race: threads before the check, past the check,
past the insert, finished (by outcome), plus the shared row-exists flag and
the number of applied counter increments. -/
structure RaceState where
  nStart : ℕ
  nChecked : ℕ
  nInserted : ℕ
  nSuccess : ℕ
  nDup : ℕ
  nUnique : ℕ
  hasRecord : Bool
  counter : ℕ
  deriving DecidableEq, Repr

/-- Scheduler labels: advance one thread past its next statement. -/
inductive RaceLabel where
  | check
  | insert
  | bump
  deriving DecidableEq, Repr

/-- One atomic step.  A thread at the check finishes with the
application-level duplicate error if the row already exists, otherwise
proceeds; a thread at the insert hits the UNIQUE constraint (raw 23505
unique-violation error) if the row appeared meanwhile, otherwise inserts it;
a thread past the insert applies its counter increment and finishes. -/
def raceStep : RaceLabel → RaceState → RaceState
  | .check, st =>
    if st.nStart = 0 then st
    else if st.hasRecord then
      { st with nStart := st.nStart - 1, nDup := st.nDup + 1 }
    else
      { st with nStart := st.nStart - 1, nChecked := st.nChecked + 1 }
  | .insert, st =>
    if st.nChecked = 0 then st
    else if st.hasRecord then
      { st with nChecked := st.nChecked - 1, nUnique := st.nUnique + 1 }
    else
      { st with
          nChecked := st.nChecked - 1
          nInserted := st.nInserted + 1
          hasRecord := true }
  | .bump, st =>
    if st.nInserted = 0 then st
    else
      { st with
          nInserted := st.nInserted - 1
          nSuccess := st.nSuccess + 1
          counter := st.counter + 1 }

/-- Run a schedule. -/
def raceRun (sched : List RaceLabel) (st : RaceState) : RaceState :=
  sched.foldl (fun s lab => raceStep lab s) st

/-- Initial state: `n` threads about to run, empty table, counter zero. -/
def raceInit (n : ℕ) : RaceState := ⟨n, 0, 0, 0, 0, 0, false, 0⟩

/-- Inductive invariant of the race. -/
def RaceInv (st : RaceState) : Prop :=
  st.counter = st.nSuccess ∧
  (st.hasRecord = true → st.nInserted + st.nSuccess = 1) ∧
  (st.hasRecord = false →
    st.nInserted = 0 ∧ st.nSuccess = 0 ∧ st.nDup = 0 ∧ st.nUnique = 0)

/-- Total number of threads, preserved by every step. -/
def raceTotal (st : RaceState) : ℕ :=
  st.nStart + st.nChecked + st.nInserted + st.nSuccess + st.nDup + st.nUnique

/-- Each step preserves the invariant. -/
theorem raceStep_inv (lab : RaceLabel) (st : RaceState) (h : RaceInv st) :
    RaceInv (raceStep lab st) := by
  obtain ⟨h1, h2, h3⟩ := h
  cases lab <;> simp only [raceStep] <;> split_ifs with hA hB
  · exact ⟨h1, h2, h3⟩
  · refine ⟨h1, fun _ => by simpa [hB] using h2 hB, fun hc => ?_⟩
    rw [hB] at hc
    exact absurd hc (by simp)
  · have hB' : st.hasRecord = false := by revert hB; cases st.hasRecord <;> simp
    exact ⟨h1, fun hc => by rw [hB'] at hc; exact absurd hc (by simp),
      fun _ => by simpa using h3 hB'⟩
  · exact ⟨h1, h2, h3⟩
  · refine ⟨h1, fun _ => by simpa [hB] using h2 hB, fun hc => ?_⟩
    rw [hB] at hc
    exact absurd hc (by simp)
  · have hB' : st.hasRecord = false := by revert hB; cases st.hasRecord <;> simp
    obtain ⟨e1, e2, -, -⟩ := h3 hB'
    exact ⟨h1, fun _ => by simp [e1, e2], fun hc => by simp at hc⟩
  · exact ⟨h1, h2, h3⟩
  · cases hR : st.hasRecord
    · obtain ⟨e1, -, -, -⟩ := h3 hR
      exact absurd e1 hA
    · have := h2 hR
      exact ⟨by simp [h1], fun _ => by simp; omega, fun hc => by simp at hc⟩

/-- Each step preserves the thread total. -/
theorem raceStep_total (lab : RaceLabel) (st : RaceState) :
    raceTotal (raceStep lab st) = raceTotal st := by
  cases lab <;> simp only [raceStep] <;> split_ifs with hA hB <;>
    simp [raceTotal] <;> omega

/-- The invariant holds after any schedule from an invariant state. -/
theorem raceRun_inv (sched : List RaceLabel) (st : RaceState) (h : RaceInv st) :
    RaceInv (raceRun sched st) := by
  induction sched generalizing st with
  | nil => exact h
  | cons lab rest ih => exact ih _ (raceStep_inv lab st h)

/-- The thread total is preserved by any schedule. -/
theorem raceRun_total (sched : List RaceLabel) (st : RaceState) :
    raceTotal (raceRun sched st) = raceTotal st := by
  induction sched generalizing st with
  | nil => rfl
  | cons lab rest ih => exact (ih _).trans (raceStep_total lab st)

/-- C1 (counterexample): with two concurrent calls, the interleaving in
which both pass the duplicate check before either inserts ends with one
success and one counter increment, but the losing call receives the raw
unique-constraint violation (`nUnique = 1`, `nDup = 0`) — not the
application-level DuplicateTransaction error — because the duplicate check
is an application-level check-then-insert and the plain `INSERT` carries no
conditional (ON CONFLICT) clause. -/
theorem C1_counterexample :
    raceRun [.check, .check, .insert, .bump, .insert] (raceInit 2) =
      ⟨0, 0, 0, 1, 0, 1, true, 1⟩ := by
  rfl

/-- C1 (amended): for any number of concurrent calls recording the same
signature and any complete interleaving, exactly one call persists a record
and exactly one counter increment occurs — guaranteed by the table's UNIQUE
constraint — while each losing call receives either the application-level
duplicate error (when its check-then-insert `SELECT` already saw the row) or
a raw unique-constraint violation (when it raced past the check); the
duplicate resolution is not an atomic conditional insert. -/
theorem C1_race_amended (n : ℕ) (sched : List RaceLabel) (hn : 1 ≤ n)
    (hdone : (raceRun sched (raceInit n)).nStart = 0 ∧
      (raceRun sched (raceInit n)).nChecked = 0 ∧
      (raceRun sched (raceInit n)).nInserted = 0) :
    (raceRun sched (raceInit n)).nSuccess = 1 ∧
    (raceRun sched (raceInit n)).counter = 1 ∧
    (raceRun sched (raceInit n)).nDup + (raceRun sched (raceInit n)).nUnique =
      n - 1 := by
  have hinv := raceRun_inv sched (raceInit n)
    ⟨rfl, fun hc => by simp [raceInit] at hc, fun _ => ⟨rfl, rfl, rfl, rfl⟩⟩
  have htot := raceRun_total sched (raceInit n)
  obtain ⟨h1, h2, h3⟩ := hinv
  obtain ⟨d1, d2, d3⟩ := hdone
  have htot0 : raceTotal (raceInit n) = n := by simp [raceTotal, raceInit]
  rw [htot0] at htot
  unfold raceTotal at htot
  cases hR : (raceRun sched (raceInit n)).hasRecord
  · obtain ⟨-, e2, e3, e4⟩ := h3 hR
    omega
  · have h2' := h2 hR
    omega

/-- Witness for `C1_race_amended` on a complete two-call schedule. -/
theorem C1_race_amended_witness :
    (raceRun [.check, .check, .insert, .bump, .insert] (raceInit 2)).nSuccess = 1 ∧
    (raceRun [.check, .check, .insert, .bump, .insert] (raceInit 2)).counter = 1 ∧
    (raceRun [.check, .check, .insert, .bump, .insert] (raceInit 2)).nDup +
      (raceRun [.check, .check, .insert, .bump, .insert] (raceInit 2)).nUnique =
      2 - 1 :=
  C1_race_amended 2 [.check, .check, .insert, .bump, .insert] (by decide)
    ⟨rfl, rfl, rfl⟩

/-! ## IEEE-754 binary64 model for the fee computation (src/routes/tips.js)

The route computes `const feeAmount = Number((numAmount * FEE_RATE).toFixed(6))`
with `FEE_RATE = 0.10`, in JavaScript binary64 doubles.  Doubles are embedded
by the exact rational value they denote, carried as an explicit
numerator/positive-denominator pair `Frac` (kept unreduced so that every
operation is plain integer arithmetic).  `roundDoubleF` is IEEE-754
round-to-nearest-ties-to-even at 53 significand bits with the subnormal
cutoff at exponent −1022 (overflow past the double range is outside the
model; the fuel bounds cover the entire double range).  `toFixed(6)` yields
the decimal numeral of the integer `n` minimizing `|n/10^6 − x|` with ties
to the larger `n`, and `Number(...)` of that numeral — serialized back into
the NUMERIC(20,6) column — stores exactly the decimal `n/10^6`, so the
stored fee is fully described by `n`. -/

/-- Rational value as an explicit fraction: numerator over a positive
denominator, not necessarily reduced. -/
structure Frac where
  num : ℤ
  den : ℤ
  deriving DecidableEq, Repr

/-- Product of two fractions. -/
def Frac.mul (x y : Frac) : Frac := ⟨x.num * y.num, x.den * y.den⟩

/-- Floor of a fraction (denominator positive). -/
def Frac.floor (x : Frac) : ℤ := Int.fdiv x.num x.den

/-- Round a fraction to the nearest integer, ties to even. -/
def rheF (x : Frac) : ℤ :=
  if 2 * (x.num - Frac.floor x * x.den) < x.den then Frac.floor x
  else if x.den < 2 * (x.num - Frac.floor x * x.den) then Frac.floor x + 1
  else if Frac.floor x % 2 = 0 then Frac.floor x else Frac.floor x + 1

/-- Floor of log2 on naturals, by fuel. -/
def log2fuel : ℕ → ℕ → ℕ
  | 0, _ => 0
  | f + 1, n => if 2 ≤ n then log2fuel f (n / 2) + 1 else 0

/-- Doublings needed to raise `n/d` (with `0 < n < d`) to at least 1. -/
def scaleUpF : ℕ → ℤ → ℤ → ℕ
  | 0, _, _ => 0
  | f + 1, n, d => if d ≤ n then 0 else scaleUpF f (2 * n) d + 1

/-- Floor of the base-2 logarithm of a positive fraction. -/
def floorLog2F (x : Frac) : ℤ :=
  if x.den ≤ x.num then (log2fuel 1100 (Frac.floor x).toNat : ℤ)
  else -(scaleUpF 1200 x.num x.den : ℤ)

/-- Binary64 rounding of a positive fraction: scale into the significand
range for the value's binade (clamped at the subnormal cutoff), round to
53 bits, and scale back. -/
def roundPos (x : Frac) : Frac :=
  if 0 ≤ max (floorLog2F x) (-1022) - 52 then
    ⟨rheF ⟨x.num, x.den * 2 ^ (max (floorLog2F x) (-1022) - 52).toNat⟩ *
      2 ^ (max (floorLog2F x) (-1022) - 52).toNat, 1⟩
  else
    ⟨rheF ⟨x.num * 2 ^ (52 - max (floorLog2F x) (-1022)).toNat, x.den⟩,
      2 ^ (52 - max (floorLog2F x) (-1022)).toNat⟩

/-- Exact value of the binary64 double nearest to a fraction. -/
def roundDoubleF (x : Frac) : Frac :=
  if x.num = 0 then ⟨0, 1⟩
  else if x.num < 0 then
    ⟨-(roundPos ⟨-x.num, x.den⟩).num, (roundPos ⟨-x.num, x.den⟩).den⟩
  else roundPos x

/-- The double value of the source literal `FEE_RATE = 0.10`. -/
def FEE_RATE : Frac := roundDoubleF ⟨1, 10⟩

/-- Integer selected by `(x).toFixed(6)` on a double of exact value `x`:
the `n` with `n/10^6` closest to `x`, ties to the larger `n`. -/
def jsToFixed6 (x : Frac) : ℤ :=
  if 2 * (x.num * 1000000 - Frac.floor ⟨x.num * 1000000, x.den⟩ * x.den) < x.den
  then Frac.floor ⟨x.num * 1000000, x.den⟩
  else Frac.floor ⟨x.num * 1000000, x.den⟩ + 1

/-- Stored `fee_amount` (in millionths) for a tip whose `amount` is the
double `a`: the integer `n` with `Number((a * FEE_RATE).toFixed(6)) = n/10^6`
per the `POST /tips` route. -/
def feeAmountN (a : Frac) : ℤ := jsToFixed6 (roundDoubleF (a.mul FEE_RATE))

/-- Modelled from the spec: `amount × 0.10` rounded to 6 decimal places (in
millionths), with exact rational arithmetic.  The spec does not fix a tie
rule; ties go to the larger value here, and the counterexample below is
tie-free on both sides, so the choice is immaterial. -/
def specFeeN (a : Frac) : ℤ := jsToFixed6 (a.mul ⟨1, 10⟩)

/-- The double produced by parsing the JSON amount literal `8.000005`. -/
def amount8000005 : Frac := roundDoubleF ⟨8000005, 1000000⟩

/-- C9 (counterexample): for the double nearest the JSON amount `8.000005`
(an amount the `POST /tips` validation accepts), the stored fee is
0.800001 while `amount × 0.10` rounded to 6 decimal places is 0.800000 —
tie-free on both sides, so the stored feeAmount does not equal the exact
rounded product for every amount. -/
theorem C9_counterexample :
    amount8000005 = ⟨4503602442120263, 562949953421312⟩ ∧
    feeAmountN amount8000005 = 800001 ∧
    specFeeN amount8000005 = 800000 ∧
    feeAmountN amount8000005 ≠ specFeeN amount8000005 := by
  decide

/-- C9 (amended): the stored feeAmount is `Number((a * 0.1).toFixed(6))`
computed in binary64 — the 6-decimal rounding of the double product — which
for amount 100 equals exactly 10.000000 and agrees with `a × 0.10` rounded
to 6 decimal places (and for amount 250 equals 25.000000), though not for
every representable amount. -/
theorem C9_fee_rounding :
    feeAmountN ⟨100, 1⟩ = 10000000 ∧
    feeAmountN (roundDoubleF ⟨100, 1⟩) = 10000000 ∧
    specFeeN ⟨100, 1⟩ = 10000000 ∧
    feeAmountN (roundDoubleF ⟨250, 1⟩) = 25000000 ∧
    specFeeN (roundDoubleF ⟨250, 1⟩) = 25000000 := by
  decide
